import Mathlib

/-!
Shallow embedding of the recommendation core of the Virtual_TryOn backend:
`backend/app/services/recommendation_service.py` and
`backend/app/services/visual_similarity_service.py`.

Numeric values (Python floats) are modelled as exact rationals; the external
ResNet backbone, image decoding and the floating-point square root used by
`np.linalg.norm` are abstract function parameters, since they live outside the
repository.  Dictionaries (`dict` / `defaultdict(float)`) are modelled as
association lists that preserve Python's insertion order: an update rewrites
the value in place, a fresh key is appended at the end.
-/

namespace VirtualTryOn

/-! ## Strategy weight table (RecommendationEngine.__init__) -/

/-- The weight table built in `RecommendationEngine.__init__`.  The
`visual_similarity` entry is `none` exactly when the key is absent from the
Python dict (the `use_visual_similarity = False` branch). -/
structure Weights where
  try_on_history : ℚ
  favorites : ℚ
  wardrobe : ℚ
  similar_users : ℚ
  trending : ℚ
  visual_similarity : Option ℚ
deriving DecidableEq

/-- `RecommendationEngine.__init__`: the two weight configurations, chosen by
`use_visual_similarity`. -/
def engineWeights (use_visual_similarity : Bool) : Weights :=
  if use_visual_similarity then
    { try_on_history := 25/100, favorites := 20/100, wardrobe := 15/100,
      similar_users := 15/100, trending := 10/100,
      visual_similarity := some (15/100) }
  else
    { try_on_history := 30/100, favorites := 25/100, wardrobe := 20/100,
      similar_users := 15/100, trending := 10/100,
      visual_similarity := none }

/-- Sum of the active strategy weights (an absent visual weight contributes
nothing). -/
def Weights.activeSum (w : Weights) : ℚ :=
  w.try_on_history + w.favorites + w.wardrobe + w.similar_users + w.trending +
    (w.visual_similarity.getD 0)

/-! ## Insertion-order dictionaries and stable descending sort -/

/-- Python dict update `d[k] = v`: overwrite in place if the key is present,
otherwise append the new key at the end (insertion order). -/
def updateAssoc : List (String × ℚ) → String → ℚ → List (String × ℚ)
  | [], k, v => [(k, v)]
  | p :: tl, k, v => if p.1 = k then (k, v) :: tl else p :: updateAssoc tl k v

/-- Python dict lookup `d.get(k)`. -/
def assocFind : List (String × ℚ) → String → Option ℚ
  | [], _ => none
  | p :: tl, k => if p.1 = k then some p.2 else assocFind tl k

/-- Stable insertion into a list sorted by strictly descending key order:
the new element goes after every element with a strictly larger key and
before the first element whose key is not larger, so elements with equal
keys keep their original relative order (as Python's stable `sorted`
with `reverse=True` does). -/
def insertDesc {α : Type} (key : α → ℚ) (x : α) : List α → List α
  | [] => [x]
  | y :: ys => if key x ≤ key y then y :: insertDesc key x ys else x :: y :: ys

/-- Stable sort by descending key (`sorted(..., key=..., reverse=True)` /
`list.sort(key=..., reverse=True)`). -/
def sortDesc {α : Type} (key : α → ℚ) (l : List α) : List α :=
  l.foldr (insertDesc key) []

theorem mem_insertDesc {α : Type} (key : α → ℚ) (x : α) (l : List α) (z : α) :
    z ∈ insertDesc key x l ↔ z = x ∨ z ∈ l := by
  induction l with
  | nil => simp [insertDesc]
  | cons y ys ih =>
      by_cases h : key x ≤ key y
      · simp only [insertDesc, if_pos h, List.mem_cons, ih]
        try tauto
      · simp only [insertDesc, if_neg h, List.mem_cons]
        try tauto

theorem mem_sortDesc {α : Type} (key : α → ℚ) (l : List α) (z : α) :
    z ∈ sortDesc key l ↔ z ∈ l := by
  induction l with
  | nil => simp [sortDesc]
  | cons y ys ih =>
      simp only [sortDesc, List.foldr_cons, mem_insertDesc, List.mem_cons]
      rw [sortDesc] at ih
      rw [ih]
      try tauto

/-- Sortedness predicate: keys are pairwise non-increasing left to right. -/
def SortedDescBy {α : Type} (key : α → ℚ) (l : List α) : Prop :=
  l.Pairwise (fun a b => key b ≤ key a)

theorem sortedDescBy_insertDesc {α : Type} (key : α → ℚ) (x : α)
    (l : List α) (hl : SortedDescBy key l) :
    SortedDescBy key (insertDesc key x l) := by
  induction l with
  | nil => simp [insertDesc, SortedDescBy]
  | cons y ys ih =>
      rcases List.pairwise_cons.mp hl with ⟨hy, hys⟩
      by_cases h : key x ≤ key y
      · simp only [insertDesc, if_pos h]
        refine List.pairwise_cons.mpr ⟨?_, ih hys⟩
        intro z hz
        rcases (mem_insertDesc key x ys z).mp hz with rfl | hzys
        · exact h
        · exact hy z hzys
      · simp only [insertDesc, if_neg h]
        refine List.pairwise_cons.mpr ⟨?_, hl⟩
        intro z hz
        rcases List.mem_cons.mp hz with rfl | hzys
        · exact le_of_not_le h
        · exact le_trans (hy z hzys) (le_of_not_le h)

theorem sortedDescBy_sortDesc {α : Type} (key : α → ℚ) (l : List α) :
    SortedDescBy key (sortDesc key l) := by
  induction l with
  | nil => simp [sortDesc, SortedDescBy]
  | cons y ys ih =>
      exact sortedDescBy_insertDesc key y (sortDesc key ys) ih

/-! ## C1: weight normalization -/

/-- C1.  The weight table fixed at construction sums to 1 in both
configurations and carries exactly the documented per-strategy values:
with visual similarity enabled — content 0.25, favorites 0.20, wardrobe 0.15,
collaborative 0.15, trending 0.10, visual 0.15; with it disabled — content
0.30, favorites 0.25, wardrobe 0.20, collaborative 0.15, trending 0.10, and
the visual entry is absent. -/
theorem weights_sum_to_one :
    (engineWeights true).activeSum = 1 ∧
    (engineWeights false).activeSum = 1 ∧
    engineWeights true =
      { try_on_history := 25/100, favorites := 20/100, wardrobe := 15/100,
        similar_users := 15/100, trending := 10/100,
        visual_similarity := some (15/100) } ∧
    engineWeights false =
      { try_on_history := 30/100, favorites := 25/100, wardrobe := 20/100,
        similar_users := 15/100, trending := 10/100,
        visual_similarity := none } := by
  refine ⟨?_, ?_, rfl, rfl⟩ <;> norm_num [engineWeights, Weights.activeSum]

/-! ## Visual similarity search engine (visual_similarity_service.py)

`VisualSimilaritySearchEngine` holds a flat inner-product FAISS index
(modelled as the list of stored vectors, in insertion order), the parallel
`item_ids` list, and the `metadata` dict keyed by item id.  Scores are exact
rationals; the float32 cast in `add_items` is the identity in this model. -/

/-- Inner product of two vectors (`faiss.IndexFlatIP` scoring). -/
def dot (u v : List ℚ) : ℚ := (List.zipWith (fun a b => a * b) u v).sum

/-- The metadata dict stored per item
(`build_index_from_catalog` stores these keys). -/
structure Meta where
  name : Option String := none
  category : Option String := none
  brand : Option String := none
  price : Option ℚ := none
  image_url : Option String := none
deriving DecidableEq

/-- One entry of the list returned by `VisualSimilaritySearchEngine.search`:
the result dict `{'item_id', 'similarity_score'}` merged with the item's
metadata when present. -/
structure SearchResult where
  item_id : String
  similarity_score : ℚ
  meta : Option Meta
deriving DecidableEq

/-- `result.get('category')` on a search-result dict. -/
def SearchResult.category (r : SearchResult) : Option String :=
  r.meta.bind Meta.category

/-- State of `VisualSimilaritySearchEngine`. -/
structure EngineState where
  feature_dim : Nat
  vectors : List (List ℚ)
  item_ids : List String
  metadata : List (String × Meta)
deriving DecidableEq

/-- `VisualSimilaritySearchEngine.__init__`: empty flat index. -/
def initialEngine (feature_dim : Nat) : EngineState :=
  { feature_dim := feature_dim, vectors := [], item_ids := [], metadata := [] }

/-- `VisualSimilaritySearchEngine.add_items`: append vectors to the index,
extend `item_ids`, and store metadata per id when given (`zip` stops at the
shorter list; a later duplicate id overwrites the dict entry, modelled by
prepending so that `lookup` finds the newest binding). -/
def addItems (s : EngineState) (features : List (List ℚ)) (ids : List String)
    (meta : Option (List Meta)) : EngineState :=
  { s with
    vectors := s.vectors ++ features
    item_ids := s.item_ids ++ ids
    metadata :=
      match meta with
      | none => s.metadata
      | some ms => (List.zip ids ms).foldl (fun d p => p :: d) s.metadata }

/-- `VisualSimilaritySearchEngine.search`: an empty index returns `[]`;
otherwise score every stored vector by inner product with the query, rank by
descending score (exhaustive flat search; ties keep insertion order), keep
`min k (number of items)` results, and drop any raw index that is out of
range of `item_ids` (the `if idx < len(self.item_ids)` guard). -/
def search (s : EngineState) (q : List ℚ) (k : Nat) : List SearchResult :=
  if s.item_ids.length = 0 then []
  else
    let scored := s.vectors.enum.map (fun p => (p.1, dot q p.2))
    let ranked := sortDesc (fun p => p.2) scored
    let top := ranked.take (min k s.item_ids.length)
    top.filterMap (fun p =>
      if p.1 < s.item_ids.length then
        some { item_id := s.item_ids.getD p.1 ""
               similarity_score := p.2
               meta := s.metadata.lookup (s.item_ids.getD p.1 "") }
      else none)

/-- What `VisualSimilaritySearchEngine.save` writes to disk: the FAISS index
file (the stored vectors) plus the pickle holding `item_ids` and `metadata`. -/
structure SavedIndex where
  vectors : List (List ℚ)
  item_ids : List String
  metadata : List (String × Meta)
deriving DecidableEq

/-- `VisualSimilaritySearchEngine.save`. -/
def save (s : EngineState) : SavedIndex :=
  { vectors := s.vectors, item_ids := s.item_ids, metadata := s.metadata }

/-- `VisualSimilaritySearchEngine.load`: replaces the index, `item_ids` and
`metadata` wholesale with the stored artifacts. -/
def load (s : EngineState) (d : SavedIndex) : EngineState :=
  { s with vectors := d.vectors, item_ids := d.item_ids, metadata := d.metadata }

/-- `VisualRecommendationService.get_similar_items_by_id`: an id absent from
`item_ids` returns `[]` (after a log warning); otherwise reconstruct the
stored vector at the first occurrence of the id, search for `k+1` neighbours,
drop every result whose `item_id` equals the query id, apply the category
filter when given, and keep the first `k`. -/
def getSimilarItemsById (s : EngineState) (item_id : String) (k : Nat)
    (category_filter : Option String) : List SearchResult :=
  if item_id ∈ s.item_ids then
    let idx := s.item_ids.indexOf item_id
    let q := s.vectors.getD idx []
    let sims := (search s q (k + 1)).filter (fun r => r.item_id ≠ item_id)
    let sims2 :=
      match category_filter with
      | none => sims
      | some c => sims.filter (fun r => r.category = some c)
    sims2.take k
  else []

/-! ## C3: absent item id -/

/-- A tiny concrete index holding the single item `"a"`. -/
def engineA : EngineState :=
  addItems (initialEngine 2) [[1, 0]] ["a"] (some [{ category := some "top" }])

/-- C3 counterexample.  Asking `get_similar_items_by_id` about an id absent
from the index does not fail with a distinct `ItemNotIndexed` error: the code
has no such error outcome at all and returns the normal value `[]`
(indistinguishable from a successful query with no neighbours). -/
theorem similar_by_id_absent_no_error :
    getSimilarItemsById engineA "b" 5 none = [] ∧
    getSimilarItemsById engineA "b" 5 none = search engineA [1, 0] 0 := by
  constructor
  · simp [getSimilarItemsById, engineA, addItems, initialEngine]
  · simp [getSimilarItemsById, engineA, addItems, initialEngine, search]

/-- C3 amended.  For every item id absent from the index,
`get_similar_items_by_id` returns the empty list — a normal, non-error
result — rather than raising a distinct `ItemNotIndexed` error. -/
theorem similar_by_id_absent_returns_empty (s : EngineState) (item_id : String)
    (k : Nat) (cf : Option String) (h : item_id ∉ s.item_ids) :
    getSimilarItemsById s item_id k cf = [] := by
  simp [getSimilarItemsById, h]

/-- Witness for `similar_by_id_absent_returns_empty` at a concrete state. -/
theorem similar_by_id_absent_returns_empty_concrete :
    "b" ∉ engineA.item_ids ∧ getSimilarItemsById engineA "b" 5 none = [] := by
  have h : "b" ∉ engineA.item_ids := by
    simp [engineA, addItems, initialEngine]
  exact ⟨h, similar_by_id_absent_returns_empty engineA "b" 5 none h⟩

/-! ## C6: self-exclusion -/

/-- C6.  For every indexed item `X` (with at least one other indexed item
present) and every `k`, `get_similar_items_by_id X k` queries `k+1`
neighbours, removes every result entry whose `item_id` equals `X` — so `X`
itself never appears in the output — applies the category filter when given,
and returns at most `k` entries. -/
theorem similar_by_id_self_exclusion (s : EngineState) (X : String) (k : Nat)
    (cf : Option String) (hX : X ∈ s.item_ids)
    (hother : ∃ y ∈ s.item_ids, y ≠ X) :
    (∀ r ∈ getSimilarItemsById s X k cf, r.item_id ≠ X) ∧
    (getSimilarItemsById s X k cf).length ≤ k := by
  constructor
  · intro r hr
    cases cf with
    | none =>
        simp only [getSimilarItemsById, if_pos hX] at hr
        have hr2 := List.mem_of_mem_take hr
        have := List.mem_filter.mp hr2
        simpa using this.2
    | some c =>
        simp only [getSimilarItemsById, if_pos hX] at hr
        have hr2 := List.mem_of_mem_take hr
        have h1 := (List.mem_filter.mp hr2).1
        have := List.mem_filter.mp h1
        simpa using this.2
  · cases cf with
    | none =>
        simp only [getSimilarItemsById, if_pos hX]
        exact List.length_take_le k _
    | some c =>
        simp only [getSimilarItemsById, if_pos hX]
        exact List.length_take_le k _

/-- A concrete two-item index used as witness data. -/
def engineAB : EngineState :=
  addItems (initialEngine 2) [[1, 0], [0, 1]] ["a", "b"] none

/-- Witness for `similar_by_id_self_exclusion` on the two-item index. -/
theorem similar_by_id_self_exclusion_concrete :
    ("a" ∈ engineAB.item_ids ∧ ∃ y ∈ engineAB.item_ids, y ≠ "a") ∧
    ((∀ r ∈ getSimilarItemsById engineAB "a" 1 none, r.item_id ≠ "a") ∧
      (getSimilarItemsById engineAB "a" 1 none).length ≤ 1) := by
  have hX : "a" ∈ engineAB.item_ids := by
    simp [engineAB, addItems, initialEngine]
  have hother : ∃ y ∈ engineAB.item_ids, y ≠ "a" := by
    refine ⟨"b", ?_, by decide⟩
    simp [engineAB, addItems, initialEngine]
  exact ⟨⟨hX, hother⟩,
    similar_by_id_self_exclusion engineAB "a" 1 none hX hother⟩

/-! ## C9: index round-trip -/

/-- Replay a sequence of `add_items` calls
`(features, item_ids, metadata?)` against a state. -/
def applyAdds (s : EngineState) :
    List (List (List ℚ) × List String × Option (List Meta)) → EngineState
  | [] => s
  | a :: rest => applyAdds (addItems s a.1 a.2.1 a.2.2) rest

theorem search_state_eq (s₁ s₂ : EngineState)
    (hv : s₁.vectors = s₂.vectors) (hi : s₁.item_ids = s₂.item_ids)
    (hm : s₁.metadata = s₂.metadata) (q : List ℚ) (k : Nat) :
    search s₁ q k = search s₂ q k := by
  cases s₁
  cases s₂
  cases hv
  cases hi
  cases hm
  rfl

/-- C9.  For any sequence of `add_items` calls producing state `S`, saving
`S` and loading the artifacts into a fresh index yields a state on which
`search q k` returns exactly the same ordered `(item_id, score)` pairs as on
`S`, for every query vector `q` and every `k` at most the number of indexed
items — `save` stores, and `load` restores, the full vector index, the
`item_ids` list and the metadata dict. -/
theorem index_roundtrip (dim : Nat)
    (adds : List (List (List ℚ) × List String × Option (List Meta)))
    (q : List ℚ) (k : Nat)
    (hk : k ≤ (applyAdds (initialEngine dim) adds).item_ids.length) :
    (search (load (initialEngine dim) (save (applyAdds (initialEngine dim) adds))) q k).map
        (fun r => (r.item_id, r.similarity_score)) =
      (search (applyAdds (initialEngine dim) adds) q k).map
        (fun r => (r.item_id, r.similarity_score)) := by
  rw [search_state_eq
    (load (initialEngine dim) (save (applyAdds (initialEngine dim) adds)))
    (applyAdds (initialEngine dim) adds) rfl rfl rfl q k]

/-- Witness for `index_roundtrip` at a concrete two-item index. -/
theorem index_roundtrip_concrete :
    2 ≤ (applyAdds (initialEngine 2) [([[1, 0], [0, 1]], ["a", "b"], none)]).item_ids.length ∧
    (search (load (initialEngine 2)
        (save (applyAdds (initialEngine 2) [([[1, 0], [0, 1]], ["a", "b"], none)]))) [1, 0] 2).map
        (fun r => (r.item_id, r.similarity_score)) =
      (search (applyAdds (initialEngine 2) [([[1, 0], [0, 1]], ["a", "b"], none)]) [1, 0] 2).map
        (fun r => (r.item_id, r.similarity_score)) := by
  have hk : 2 ≤ (applyAdds (initialEngine 2)
      [([[1, 0], [0, 1]], ["a", "b"], none)]).item_ids.length := by
    simp [applyAdds, addItems, initialEngine]
  exact ⟨hk, index_roundtrip 2 [([[1, 0], [0, 1]], ["a", "b"], none)] [1, 0] 2 hk⟩

/-! ## Feature extractor (FashionFeatureExtractor)

The image decoder (`PIL.Image.open(...).convert('RGB')`), the preprocessing
pipeline (`Resize/CenterCrop/ToTensor/Normalize`) and the pretrained ResNet50
backbone are external to the repository; they enter the embedding as the
abstract function fields of `Extractor`.  `fnorm` stands for
`np.linalg.norm`, the floating-point square root of the sum of squares. -/

/-- Sum of squares of the entries (the square of the L2 norm). -/
def normSq (v : List ℚ) : ℚ := (v.map (fun x => x * x)).sum

/-- `np.zeros(n)`. -/
def zeroVec (n : Nat) : List ℚ := List.replicate n 0

/-- `torch.zeros(3, 224, 224)`, flattened — the tensor substituted by
`extract_features_batch` for an image that fails to load. -/
def zeroImageTensor : List ℚ := List.replicate (3 * 224 * 224) 0

/-- The external collaborators of `FashionFeatureExtractor`:
image decoding (`none` = decode/processing failure), preprocessing, the
ResNet50 backbone (pooled and flattened), and the float norm. -/
structure Extractor where
  decode : String → Option (List ℚ)
  preprocess : List ℚ → List ℚ
  model : List ℚ → List ℚ
  fnorm : List ℚ → ℚ

/-- The `1e-8` guard added to the denominator in `extract_features_batch`. -/
def eps8 : ℚ := 1 / 100000000

/-- `FashionFeatureExtractor.extract_features`: decode, preprocess, run the
backbone, divide by the norm; on any failure return `np.zeros(2048)`. -/
def extract_features (E : Extractor) (path : String) : List ℚ :=
  match E.decode path with
  | none => zeroVec 2048
  | some img =>
    let f := E.model (E.preprocess img)
    f.map (fun x => x / E.fnorm f)

/-- `FashionFeatureExtractor.extract_features_batch`: per image, decode and
preprocess (substituting the zero image tensor on failure), run the backbone,
and divide each row by `norm + 1e-8`.  The fixed-size chunking (`batch_size`)
only groups backbone calls; since the backbone acts row-independently the
denotation is a per-image map, one output row per input path in order. -/
def extract_features_batch (E : Extractor) (paths : List String) :
    List (List ℚ) :=
  paths.map (fun p =>
    let t :=
      match E.decode p with
      | none => zeroImageTensor
      | some img => E.preprocess img
    let f := E.model t
    f.map (fun x => x / (E.fnorm f + eps8)))

/-- A concrete extractor instantiation: `"good"` decodes to an image whose
backbone output is `[3, 4]` (true norm 5); everything else fails to decode,
and the zero image tensor's backbone output is `[1, 0]` (true norm 1).
`fnorm` agrees with the exact L2 norm on both reachable outputs. -/
def extractor0 : Extractor :=
  { decode := fun p => if p = "good" then some [1] else none
    preprocess := fun img => img
    model := fun t => if t.headD 0 = 1 then [3, 4] else [1, 0]
    fnorm := fun v => if v.headD 0 = 3 then 5 else 1 }

theorem zeroImageTensor_headD : zeroImageTensor.headD 0 = 0 := rfl

theorem zeroImageTensor_head : zeroImageTensor.head? = some 0 := rfl

theorem normSq_zeroVec (n : Nat) : normSq (zeroVec n) = 0 := by
  induction n with
  | zero => simp [normSq, zeroVec]
  | succ m ih =>
      simp only [zeroVec, List.replicate_succ, normSq, List.map_cons,
        List.sum_cons] at *
      simpa using ih

theorem normSq_map_div (v : List ℚ) (n : ℚ) :
    normSq (v.map (fun x => x / n)) = normSq v / (n * n) := by
  induction v with
  | nil => simp [normSq]
  | cons x xs ih =>
      simp only [normSq, List.map_cons, List.sum_cons] at *
      rw [div_mul_div_comm, ih, div_add_div_same]

/-! ## C4: batch vs single extraction -/

/-- C4 counterexample.  With the concrete extractor: for a successfully
loaded image the batch row `[3/(5+1e-8), 4/(5+1e-8)]` differs from the single
extract `[3/5, 4/5]` (the batch divides by `norm + 1e-8`, the single extract
by `norm`); and for an image that fails to load the batch row is the
normalized backbone output of the zero image tensor, not the zero vector the
single extract returns. -/
theorem extract_batch_differs_from_single :
    extract_features_batch extractor0 ["good"] ≠
      [extract_features extractor0 "good"] ∧
    extract_features_batch extractor0 ["bad"] ≠ [zeroVec 2048] := by
  have hg : extract_features_batch extractor0 ["good"] =
      [[3 / (5 + eps8), 4 / (5 + eps8)]] := by
    simp [extract_features_batch, extractor0]
  have hs : extract_features extractor0 "good" = [3 / 5, 4 / 5] := by
    simp [extract_features, extractor0]
  have hb : extract_features_batch extractor0 ["bad"] =
      [[1 / (1 + eps8), 0]] := by
    simp [extract_features_batch, extractor0, zeroImageTensor_headD,
      zeroImageTensor_head]
  constructor
  · rw [hg, hs]
    intro h
    have h0 := congrArg (fun l => (l.headD []).headD 0) h
    simp only [List.headD_cons] at h0
    rw [eps8] at h0
    norm_num at h0
  · rw [hb]
    intro h
    have h0 := congrArg (fun l => (l.headD []).length) h
    simp only [List.headD_cons, List.length_cons, List.length_nil, zeroVec,
      List.length_replicate] at h0
    norm_num at h0

/-- C4 amended.  `extract_batch` never aborts (one row per input path, in
order); for a successfully loaded image its row equals the single-extract
embedding rescaled by `norm/(norm + 1e-8)` — the batch divides by
`norm + 1e-8` where the single extract divides by `norm` — and for an image
that fails to load the batch substitutes the zero image tensor and embeds its
backbone output like any other image, whereas the single extract returns the
2048-dimensional zero vector. -/
theorem extract_batch_relates_to_single (E : Extractor) (paths : List String)
    (p q : String) (img : List ℚ) (hp : E.decode p = some img)
    (hn : E.fnorm (E.model (E.preprocess img)) ≠ 0)
    (hq : E.decode q = none) :
    (extract_features_batch E paths).length = paths.length ∧
    extract_features_batch E [p] =
      [(extract_features E p).map (fun x =>
        x * (E.fnorm (E.model (E.preprocess img)) /
          (E.fnorm (E.model (E.preprocess img)) + eps8)))] ∧
    extract_features_batch E [q] =
      [(E.model zeroImageTensor).map (fun x =>
        x / (E.fnorm (E.model zeroImageTensor) + eps8))] ∧
    extract_features E q = zeroVec 2048 := by
  refine ⟨by simp [extract_features_batch], ?_, ?_, ?_⟩
  · simp only [extract_features_batch, extract_features, hp, List.map_cons,
      List.map_nil, List.map_map]
    congr 1
    apply List.map_congr_left
    intro a _
    field_simp
  · simp [extract_features_batch, hq]
  · simp [extract_features, hq]

/-- Witness for `extract_batch_relates_to_single` on the concrete
extractor. -/
theorem extract_batch_relates_to_single_concrete :
    (extractor0.decode "good" = some [1] ∧
      extractor0.fnorm (extractor0.model (extractor0.preprocess [1])) ≠ 0 ∧
      extractor0.decode "bad" = none) ∧
    ((extract_features_batch extractor0 ["good", "bad"]).length =
        (["good", "bad"] : List String).length ∧
      extract_features_batch extractor0 ["good"] =
        [(extract_features extractor0 "good").map (fun x =>
          x * (extractor0.fnorm (extractor0.model (extractor0.preprocess [1])) /
            (extractor0.fnorm (extractor0.model (extractor0.preprocess [1])) + eps8)))] ∧
      extract_features_batch extractor0 ["bad"] =
        [(extractor0.model zeroImageTensor).map (fun x =>
          x / (extractor0.fnorm (extractor0.model zeroImageTensor) + eps8))] ∧
      extract_features extractor0 "bad" = zeroVec 2048) := by
  have h1 : extractor0.decode "good" = some [1] := by simp [extractor0]
  have h2 : extractor0.fnorm (extractor0.model (extractor0.preprocess [1])) ≠ 0 := by
    simp [extractor0]
  have h3 : extractor0.decode "bad" = none := by simp [extractor0]
  exact ⟨⟨h1, h2, h3⟩,
    extract_batch_relates_to_single extractor0 ["good", "bad"] "good" "bad"
      [1] h1 h2 h3⟩

/-! ## C5: normalization invariant -/

/-- ‖v‖₂ = 1 within tolerance `1e-5`, phrased on the squared norm: for a
nonnegative norm, `|‖v‖ - 1| ≤ 1e-5` holds iff `normSq v` lies between
`(1 - 1e-5)²` and `(1 + 1e-5)²`. -/
def UnitNormWithinTol (v : List ℚ) : Prop :=
  (1 - 1/100000) * (1 - 1/100000) ≤ normSq v ∧
    normSq v ≤ (1 + 1/100000) * (1 + 1/100000)

/-- C5 counterexample.  The embedding produced on a decode failure is the
zero vector, whose L2 norm is 0, not 1 within `1e-5`. -/
theorem extract_failure_not_unit_norm :
    ¬ UnitNormWithinTol (extract_features extractor0 "bad") := by
  intro h
  have hz : extract_features extractor0 "bad" = zeroVec 2048 := by
    simp [extract_features, extractor0]
  rw [hz, UnitNormWithinTol, normSq_zeroVec] at h
  norm_num at h

/-- C5 amended.  Every embedding produced from a successfully decoded image
whose float norm is exact (`fnorm f · fnorm f = normSq f`) and whose backbone
output is nonzero has squared L2 norm exactly 1; on a decode/processing
failure the extractor instead returns the 2048-dimensional zero vector, whose
norm is 0. -/
theorem extract_success_unit_norm (E : Extractor) (p q : String)
    (img : List ℚ) (hp : E.decode p = some img)
    (hexact : E.fnorm (E.model (E.preprocess img)) *
        E.fnorm (E.model (E.preprocess img)) =
      normSq (E.model (E.preprocess img)))
    (hnz : normSq (E.model (E.preprocess img)) ≠ 0)
    (hq : E.decode q = none) :
    normSq (extract_features E p) = 1 ∧
    extract_features E q = zeroVec 2048 ∧
    normSq (extract_features E q) = 0 := by
  refine ⟨?_, by simp [extract_features, hq], ?_⟩
  · simp only [extract_features, hp]
    rw [normSq_map_div, hexact, div_self hnz]
  · simp [extract_features, hq, normSq_zeroVec]

/-- Witness for `extract_success_unit_norm` on the concrete extractor. -/
theorem extract_success_unit_norm_concrete :
    (extractor0.decode "good" = some [1] ∧
      extractor0.fnorm (extractor0.model (extractor0.preprocess [1])) *
          extractor0.fnorm (extractor0.model (extractor0.preprocess [1])) =
        normSq (extractor0.model (extractor0.preprocess [1])) ∧
      normSq (extractor0.model (extractor0.preprocess [1])) ≠ 0 ∧
      extractor0.decode "bad" = none) ∧
    (normSq (extract_features extractor0 "good") = 1 ∧
      extract_features extractor0 "bad" = zeroVec 2048 ∧
      normSq (extract_features extractor0 "bad") = 0) := by
  have h1 : extractor0.decode "good" = some [1] := by simp [extractor0]
  have h2 : extractor0.fnorm (extractor0.model (extractor0.preprocess [1])) *
      extractor0.fnorm (extractor0.model (extractor0.preprocess [1])) =
      normSq (extractor0.model (extractor0.preprocess [1])) := by
    simp [extractor0, normSq]
    norm_num
  have h3 : normSq (extractor0.model (extractor0.preprocess [1])) ≠ 0 := by
    simp [extractor0, normSq]
    norm_num
  have h4 : extractor0.decode "bad" = none := by simp [extractor0]
  exact ⟨⟨h1, h2, h3, h4⟩,
    extract_success_unit_norm extractor0 "good" "bad" [1] h1 h2 h3 h4⟩

/-! ## Visual-similarity strategy (_visual_similarity_recommendations)

One recent try-on contributes either nothing (no resolvable image path, or a
`get_similar_items_by_image` call that raised and was caught by the inner
`try/except` with `continue`) or a list of `(item_id, similarity_score)`
pairs.  The `all_similar` dict is folded entry by entry. -/

inductive ImageLookup
  | noImage : ImageLookup
  | failed : String → ImageLookup
  | ok : List (String × ℚ) → ImageLookup
deriving DecidableEq

/-- `recency_weight = 1.0` in the source. -/
def recencyWeight : ℚ := 1

/-- The similarity pairs a try-on contributes:
nothing unless the lookup succeeded. -/
def okSims : ImageLookup → List (String × ℚ)
  | .ok sims => sims
  | .noImage => []
  | .failed _ => []

/-- One `all_similar` dict update: a first occurrence stores
`similarity * recency_weight`; a recurrence replaces the stored value by the
average of the stored value and the new contribution. -/
def visualAccum (acc : List (String × ℚ)) (p : String × ℚ) :
    List (String × ℚ) :=
  match assocFind acc p.1 with
  | none => updateAssoc acc p.1 (p.2 * recencyWeight)
  | some old => updateAssoc acc p.1 ((old + p.2 * recencyWeight) / 2)

/-- The `all_similar` dict built by `_visual_similarity_recommendations`
across the recent try-ons, in order. -/
def visualRawScores (lookups : List ImageLookup) : List (String × ℚ) :=
  lookups.foldl (fun acc l => (okSims l).foldl visualAccum acc) []

/-- `max` of a Python list (only used on nonempty lists in the source;
`0` for the empty list here). -/
def listMax : List ℚ → ℚ
  | [] => 0
  | x :: xs => xs.foldl max x

/-- The final `scores` dict: empty if `all_similar` is empty, otherwise each
raw score divided by the maximum raw score
(`score / max_score if max_score > 0 else 0`). -/
def visualScores (lookups : List ImageLookup) : List (String × ℚ) :=
  let raw := visualRawScores lookups
  if raw.isEmpty then []
  else
    let m := listMax (raw.map (fun p => p.2))
    raw.map (fun p => (p.1, if 0 < m then p.2 / m else 0))

/-! Helper lemmas: association-list updates and the per-item view of the
dict fold. -/

theorem assocFind_updateAssoc_self (d : List (String × ℚ)) (k : String)
    (v : ℚ) : assocFind (updateAssoc d k v) k = some v := by
  induction d with
  | nil => simp [updateAssoc, assocFind]
  | cons hd tl ih =>
      by_cases hk : hd.1 = k
      · simp [updateAssoc, hk, assocFind]
      · simp [updateAssoc, hk, assocFind, ih]

theorem assocFind_updateAssoc_ne (d : List (String × ℚ)) (k : String) (v : ℚ)
    (k' : String) (h : k' ≠ k) :
    assocFind (updateAssoc d k v) k' = assocFind d k' := by
  induction d with
  | nil => simp [updateAssoc, assocFind, Ne.symm h]
  | cons hd tl ih =>
      by_cases hk : hd.1 = k
      · simp [updateAssoc, hk, assocFind, Ne.symm h, ih]
      · by_cases hk' : hd.1 = k'
        · simp [updateAssoc, hk, assocFind, hk', h]
        · simp [updateAssoc, hk, assocFind, hk', ih]

/-- Value stored on an item's first contribution
(`similarity * recency_weight`). -/
def startVal (s : ℚ) : ℚ := s * recencyWeight

/-- The update applied when an item recurs:
`(stored + similarity * recency_weight) / 2`. -/
def stepAvg (a s : ℚ) : ℚ := (a + s * recencyWeight) / 2

/-- Expected dict value for an item, given its current stored value and the
list of its remaining contributions, under the running-average recurrence. -/
def mergeAvg : Option ℚ → List ℚ → Option ℚ
  | none, [] => none
  | none, s :: rest => some (rest.foldl stepAvg (startVal s))
  | some a, contrib => some (contrib.foldl stepAvg a)

/-- The similarity scores an entry list contributes for one item, in
processing order. -/
def itemSims (es : List (String × ℚ)) (item : String) : List ℚ :=
  es.filterMap (fun p => if p.1 = item then some p.2 else none)

/-- All successful lookups' entries, flattened in processing order. -/
def flatSims (lookups : List ImageLookup) : List (String × ℚ) :=
  lookups.foldr (fun l acc => okSims l ++ acc) []

theorem foldl_visualAccum_assocFind (es : List (String × ℚ))
    (acc : List (String × ℚ)) (item : String) :
    assocFind (es.foldl visualAccum acc) item =
      mergeAvg (assocFind acc item) (itemSims es item) := by
  induction es generalizing acc with
  | nil => cases h : assocFind acc item <;> simp [mergeAvg, itemSims, h]
  | cons e rest ih =>
      rw [List.foldl_cons, ih]
      by_cases he : e.1 = item
      · cases h : assocFind acc e.1 with
        | none =>
            have hfind : assocFind (visualAccum acc e) item =
                some (startVal e.2) := by
              simp only [visualAccum, h]
              rw [← he]
              exact assocFind_updateAssoc_self acc e.1 (e.2 * recencyWeight)
            have hacc : assocFind acc item = none := by rw [← he]; exact h
            have hsims : itemSims (e :: rest) item =
                e.2 :: itemSims rest item := by
              simp [itemSims, he]
            rw [hfind, hacc, hsims]
            simp [mergeAvg]
        | some a =>
            have hfind : assocFind (visualAccum acc e) item =
                some (stepAvg a e.2) := by
              simp only [visualAccum, h]
              rw [← he]
              exact assocFind_updateAssoc_self acc e.1 _
            have hacc : assocFind acc item = some a := by rw [← he]; exact h
            have hsims : itemSims (e :: rest) item =
                e.2 :: itemSims rest item := by
              simp [itemSims, he]
            rw [hfind, hacc, hsims]
            simp [mergeAvg]
      · have hne : item ≠ e.1 := fun hh => he hh.symm
        have hfind : assocFind (visualAccum acc e) item =
            assocFind acc item := by
          cases h : assocFind acc e.1 with
          | none =>
              simp only [visualAccum, h]
              exact assocFind_updateAssoc_ne acc e.1 _ item hne
          | some a =>
              simp only [visualAccum, h]
              exact assocFind_updateAssoc_ne acc e.1 _ item hne
        have hsims : itemSims (e :: rest) item = itemSims rest item := by
          simp [itemSims, he]
        rw [hfind, hsims]

theorem visualRawScores_flat_aux (lookups : List ImageLookup)
    (acc : List (String × ℚ)) :
    lookups.foldl (fun acc l => (okSims l).foldl visualAccum acc) acc =
      (flatSims lookups).foldl visualAccum acc := by
  induction lookups generalizing acc with
  | nil => simp [flatSims]
  | cons l rest ih => simp [flatSims, List.foldl_append, ih]

theorem visualRawScores_assocFind (lookups : List ImageLookup)
    (item : String) :
    assocFind (visualRawScores lookups) item =
      mergeAvg none (itemSims (flatSims lookups) item) := by
  rw [visualRawScores, visualRawScores_flat_aux,
    foldl_visualAccum_assocFind]
  simp [assocFind]

/-! ## C8: recurring-item score -/

/-- Three try-ons whose lookups all succeed: `"A"` recurs in all three
(similarities 1, 0, 0) and `"B"` appears once with similarity 1. -/
def exampleLookups : List ImageLookup :=
  [ImageLookup.ok [("A", 1), ("B", 1)], ImageLookup.ok [("A", 0)],
    ImageLookup.ok [("A", 0)]]

theorem exampleLookups_raw :
    visualRawScores exampleLookups = [("A", 1/4), ("B", 1)] := by
  norm_num [visualRawScores, exampleLookups, okSims, visualAccum, assocFind,
    updateAssoc, recencyWeight]

/-- C8 counterexample.  `"A"` recurs in three source images with
similarities 1, 0, 0; the claimed arithmetic average would give it raw score
1/3 (and normalized score (1+0+0)/3 / 1 = 1/3, since `"B"`'s raw score 1 is
the maximum), but the code's running pairwise average yields
((1+0)/2 + 0)/2 = 1/4. -/
theorem visual_score_not_arithmetic_mean :
    assocFind (visualScores exampleLookups) "A" = some (1/4) ∧
    ((1 : ℚ) + 0 + 0) / 3 / 1 ≠ 1/4 := by
  constructor
  · have hmax : listMax [(1 : ℚ)/4, 1] = 1 := by
      show max (1/4 : ℚ) 1 = 1
      exact max_eq_right (by norm_num)
    simp only [visualScores, exampleLookups_raw]
    norm_num [hmax, assocFind]
  · norm_num

/-- C8 amended.  When an item recurs across several of the user's recent
source images, its raw score is the left-to-right running pairwise average
`new = (stored + s·recency)/2` of its contributions — equal to the
arithmetic mean for one or two contributing images, but weighting later
images more from three on (contributions a, b, c give a/4 + b/4 + c/2) —
and the per-item scores are then normalized by dividing by the maximum raw
score when it is positive. -/
theorem visual_score_running_average (lookups : List ImageLookup)
    (item : String) (a b c : ℚ)
    (hm : 0 < listMax ((visualRawScores lookups).map (fun p => p.2))) :
    assocFind (visualRawScores lookups) item =
      mergeAvg none (itemSims (flatSims lookups) item) ∧
    [b].foldl stepAvg (startVal a) = (a + b) / 2 ∧
    [b, c].foldl stepAvg (startVal a) = a / 4 + b / 4 + c / 2 ∧
    visualScores lookups =
      (visualRawScores lookups).map (fun p =>
        (p.1, p.2 / listMax ((visualRawScores lookups).map
          (fun q => q.2)))) := by
  refine ⟨visualRawScores_assocFind lookups item, ?_, ?_, ?_⟩
  · simp only [List.foldl_cons, List.foldl_nil, stepAvg, startVal,
      recencyWeight]
    ring
  · simp only [List.foldl_cons, List.foldl_nil, stepAvg, startVal,
      recencyWeight]
    ring
  · have hne : (visualRawScores lookups).isEmpty = false := by
      cases hr : visualRawScores lookups with
      | nil => rw [hr] at hm; simp [listMax] at hm
      | cons x xs => simp
    simp only [visualScores, hne, Bool.false_eq_true, if_false]
    apply List.map_congr_left
    intro p hp
    simp [if_pos hm]

/-- Witness for `visual_score_running_average` on the concrete lookups. -/
theorem visual_score_running_average_concrete :
    0 < listMax ((visualRawScores exampleLookups).map (fun p => p.2)) ∧
    (assocFind (visualRawScores exampleLookups) "A" =
        mergeAvg none (itemSims (flatSims exampleLookups) "A") ∧
      [(0 : ℚ)].foldl stepAvg (startVal 1) = (1 + 0) / 2 ∧
      [(0 : ℚ), 0].foldl stepAvg (startVal 1) = 1 / 4 + 0 / 4 + 0 / 2 ∧
      visualScores exampleLookups =
        (visualRawScores exampleLookups).map (fun p =>
          (p.1, p.2 / listMax ((visualRawScores exampleLookups).map
            (fun q => q.2))))) := by
  have hm : 0 < listMax ((visualRawScores exampleLookups).map
      (fun p => p.2)) := by
    rw [exampleLookups_raw]
    show (0 : ℚ) < max (1/4) 1
    norm_num
  exact ⟨hm, visual_score_running_average exampleLookups "A" 1 0 0 hm⟩

/-! ## Engine-level blending (RecommendationEngine.get_recommendations)

The engine calls the five non-visual strategies with no surrounding
`try/except`; an exception in one of them is modelled by `Except.error` and
propagates through the monadic sequencing.  The visual pipeline's whole body
sits inside its own `try/except` in `_visual_similarity_recommendations`, so
a raising visual pipeline degrades to an empty score dict. -/

/-- `scores[item_id] += score * weight` over one strategy's score dict
(`scores` is a `defaultdict(float)`, so a missing key reads as 0 and the
key is appended in first-touch order). -/
def addWeighted (scores : List (String × ℚ)) (contrib : List (String × ℚ))
    (w : ℚ) : List (String × ℚ) :=
  contrib.foldl (fun acc p =>
    updateAssoc acc p.1 ((assocFind acc p.1).getD 0 + p.2 * w)) scores

/-- The visual strategy as the engine sees it:
`_visual_similarity_recommendations` catches any exception in its own body
and returns the (empty) scores accumulated so far. -/
def visualStrategy (r : Except String (List ImageLookup)) :
    List (String × ℚ) :=
  match r with
  | .error _ => []
  | .ok lookups => visualScores lookups

/-- Resolved catalog details (`_get_item_details` row). -/
structure ItemDetails where
  name : String
  category : String
  price : ℚ
  brand : String
  image : String
deriving DecidableEq

/-- One returned recommendation: resolved details plus the blended score.
The display rounding `round(score, 3)` and the hash-selected reason string
are presentation-only and omitted from the model. -/
structure RecResult where
  item_id : String
  details : ItemDetails
  recommendation_score : ℚ
deriving DecidableEq

/-- The six strategy computations as run for one request. -/
structure StrategyRuns where
  content : Except String (List (String × ℚ))
  favorites : Except String (List (String × ℚ))
  wardrobe : Except String (List (String × ℚ))
  collaborative : Except String (List (String × ℚ))
  trending : Except String (List (String × ℚ))
  visual : Except String (List ImageLookup)

/-- `RecommendationEngine.get_recommendations`: blend the weighted strategy
scores, optionally drop already-tried items, sort by descending blended
score, truncate to the top `limit`, then resolve catalog details, silently
dropping entries the catalog cannot resolve. -/
def get_recommendations (R : StrategyRuns) (use_visual_similarity : Bool)
    (exclude_tried : Bool) (tried : List String) (limit : Nat)
    (resolve : String → Option ItemDetails) :
    Except String (List RecResult) := do
  let wts := engineWeights use_visual_similarity
  let cs ← R.content
  let fs ← R.favorites
  let ws ← R.wardrobe
  let bs ← R.collaborative
  let ts ← R.trending
  let s1 := addWeighted [] cs wts.try_on_history
  let s2 := addWeighted s1 fs wts.favorites
  let s3 := addWeighted s2 ws wts.wardrobe
  let s4 := addWeighted s3 bs wts.similar_users
  let s5 := addWeighted s4 ts wts.trending
  let s6 :=
    if use_visual_similarity then
      addWeighted s5 (visualStrategy R.visual) (wts.visual_similarity.getD 0)
    else s5
  let s7 :=
    if exclude_tried then s6.filter (fun p => decide (p.1 ∉ tried)) else s6
  let ranked := sortDesc (fun p => p.2) s7
  let top := ranked.take limit
  return top.filterMap (fun p =>
    (resolve p.1).map (fun d =>
      { item_id := p.1, details := d, recommendation_score := p.2 }))

theorem error_bind {α β : Type} (e : String) (f : α → Except String β) :
    (Except.error e : Except String α) >>= f = Except.error e := rfl

theorem ok_bind {α β : Type} (a : α) (f : α → Except String β) :
    (Except.ok a : Except String α) >>= f = f a := rfl

theorem pure_eq_ok {α : Type} (a : α) :
    (pure a : Except String α) = Except.ok a := rfl

/-! ## C2: strategy failure handling -/

/-- C2 counterexample.  A raising content strategy (the five non-visual
strategies run with no engine-level `try/except`) makes the whole
`get_recommendations` call fail with that error even though every other
strategy succeeded: the failure propagates to the caller instead of being
treated as a zero-contribution strategy. -/
theorem strategy_error_propagates :
    get_recommendations
      { content := Except.error "db down", favorites := Except.ok [],
        wardrobe := Except.ok [], collaborative := Except.ok [],
        trending := Except.ok [], visual := Except.ok [] }
      true false [] 20 (fun _ => none) = Except.error "db down" := rfl

/-- C2 amended.  Only the visual strategy's failures are caught: a raising
visual pipeline is equivalent to one that found no lookups (zero
contribution), the remaining strategies are still blended and an `ok` result
is returned; but an unexpected error in any of the five other strategies —
content, favorites, wardrobe, collaborative or trending, each shown below at
its position in the engine's sequencing, with every strategy after the
failing one arbitrary — propagates to the caller as the request's result. -/
theorem visual_failure_zero_contribution
    (cs fs ws bs ts : List (String × ℚ)) (e e2 : String)
    (use_visual exclude_tried : Bool) (tried : List String) (limit : Nat)
    (resolve : String → Option ItemDetails)
    (F W B T : Except String (List (String × ℚ)))
    (V : Except String (List ImageLookup)) :
    (get_recommendations
        { content := Except.ok cs, favorites := Except.ok fs,
          wardrobe := Except.ok ws, collaborative := Except.ok bs,
          trending := Except.ok ts, visual := Except.error e }
        use_visual exclude_tried tried limit resolve =
      get_recommendations
        { content := Except.ok cs, favorites := Except.ok fs,
          wardrobe := Except.ok ws, collaborative := Except.ok bs,
          trending := Except.ok ts, visual := Except.ok [] }
        use_visual exclude_tried tried limit resolve) ∧
    (∃ out, get_recommendations
        { content := Except.ok cs, favorites := Except.ok fs,
          wardrobe := Except.ok ws, collaborative := Except.ok bs,
          trending := Except.ok ts, visual := Except.error e }
        use_visual exclude_tried tried limit resolve = Except.ok out) ∧
    get_recommendations
        { content := Except.error e2, favorites := F, wardrobe := W,
          collaborative := B, trending := T, visual := V }
        use_visual exclude_tried tried limit resolve = Except.error e2 ∧
    get_recommendations
        { content := Except.ok cs, favorites := Except.error e2,
          wardrobe := W, collaborative := B, trending := T, visual := V }
        use_visual exclude_tried tried limit resolve = Except.error e2 ∧
    get_recommendations
        { content := Except.ok cs, favorites := Except.ok fs,
          wardrobe := Except.error e2, collaborative := B, trending := T,
          visual := V }
        use_visual exclude_tried tried limit resolve = Except.error e2 ∧
    get_recommendations
        { content := Except.ok cs, favorites := Except.ok fs,
          wardrobe := Except.ok ws, collaborative := Except.error e2,
          trending := T, visual := V }
        use_visual exclude_tried tried limit resolve = Except.error e2 ∧
    get_recommendations
        { content := Except.ok cs, favorites := Except.ok fs,
          wardrobe := Except.ok ws, collaborative := Except.ok bs,
          trending := Except.error e2, visual := V }
        use_visual exclude_tried tried limit resolve = Except.error e2 :=
  ⟨rfl, ⟨_, rfl⟩, rfl, rfl, rfl, rfl, rfl⟩

/-- Witness for `visual_failure_zero_contribution` at concrete inputs. -/
theorem visual_failure_zero_contribution_concrete :
    (get_recommendations
        { content := Except.ok [("a", 1)], favorites := Except.ok [],
          wardrobe := Except.ok [], collaborative := Except.ok [],
          trending := Except.ok [], visual := Except.error "gpu gone" }
        true false [] 5 (fun _ => none) =
      get_recommendations
        { content := Except.ok [("a", 1)], favorites := Except.ok [],
          wardrobe := Except.ok [], collaborative := Except.ok [],
          trending := Except.ok [], visual := Except.ok [] }
        true false [] 5 (fun _ => none)) ∧
    (∃ out, get_recommendations
        { content := Except.ok [("a", 1)], favorites := Except.ok [],
          wardrobe := Except.ok [], collaborative := Except.ok [],
          trending := Except.ok [], visual := Except.error "gpu gone" }
        true false [] 5 (fun _ => none) = Except.ok out) ∧
    get_recommendations
        { content := Except.error "boom", favorites := Except.ok [],
          wardrobe := Except.ok [], collaborative := Except.ok [],
          trending := Except.ok [], visual := Except.ok [] }
        true false [] 5 (fun _ => none) = Except.error "boom" ∧
    get_recommendations
        { content := Except.ok [("a", 1)], favorites := Except.error "boom",
          wardrobe := Except.ok [], collaborative := Except.ok [],
          trending := Except.ok [], visual := Except.ok [] }
        true false [] 5 (fun _ => none) = Except.error "boom" ∧
    get_recommendations
        { content := Except.ok [("a", 1)], favorites := Except.ok [],
          wardrobe := Except.error "boom", collaborative := Except.ok [],
          trending := Except.ok [], visual := Except.ok [] }
        true false [] 5 (fun _ => none) = Except.error "boom" ∧
    get_recommendations
        { content := Except.ok [("a", 1)], favorites := Except.ok [],
          wardrobe := Except.ok [], collaborative := Except.error "boom",
          trending := Except.ok [], visual := Except.ok [] }
        true false [] 5 (fun _ => none) = Except.error "boom" ∧
    get_recommendations
        { content := Except.ok [("a", 1)], favorites := Except.ok [],
          wardrobe := Except.ok [], collaborative := Except.ok [],
          trending := Except.error "boom", visual := Except.ok [] }
        true false [] 5 (fun _ => none) = Except.error "boom" :=
  visual_failure_zero_contribution [("a", 1)] [] [] [] [] "gpu gone" "boom"
    true false [] 5 (fun _ => none) (Except.ok []) (Except.ok [])
    (Except.ok []) (Except.ok []) (Except.ok [])

/-! ## C10: catalog resolution failures -/

/-- A resolvable catalog row. -/
def details0 : ItemDetails :=
  { name := "Denim Jeans", category := "bottom", price := 7999/100,
    brand := "Levi", image := "/static/items/002.jpg" }

/-- A catalog lookup that cannot resolve `"a"` but resolves `"b"` and
`"c"`. -/
def resolve0 : String → Option ItemDetails := fun s =>
  if s = "a" then none
  else if s = "b" then some details0
  else if s = "c" then some details0
  else none

/-- Strategy outcomes giving positive content scores to `"a"`, `"b"`,
`"c"` (descending), with every other strategy empty. -/
def strategyRuns0 : StrategyRuns :=
  { content := Except.ok [("a", 1), ("b", 9/10), ("c", 8/10)],
    favorites := Except.ok [], wardrobe := Except.ok [],
    collaborative := Except.ok [], trending := Except.ok [],
    visual := Except.ok [] }

theorem addWeighted_nil (X : List (String × ℚ)) (w : ℚ) :
    addWeighted X [] w = X := rfl

theorem blend0_eq :
    addWeighted [] [("a", (1 : ℚ)), ("b", 9/10), ("c", 8/10)] (30/100) =
      [("a", 3/10), ("b", 27/100), ("c", 24/100)] := by
  simp [addWeighted, updateAssoc, assocFind]
  norm_num

theorem sort0_eq :
    sortDesc (fun p => p.2)
        [("a", (3 : ℚ)/10), ("b", 27/100), ("c", 24/100)] =
      [("a", 3/10), ("b", 27/100), ("c", 24/100)] := by
  norm_num [sortDesc, insertDesc]

theorem rec0_limit1 :
    get_recommendations strategyRuns0 false false [] 1 resolve0 =
      Except.ok [] := by
  simp only [get_recommendations, strategyRuns0, engineWeights, ok_bind,
    pure_eq_ok, addWeighted_nil, Bool.false_eq_true, if_false]
  rw [blend0_eq, sort0_eq]
  simp [resolve0]

theorem rec0_limit3 :
    get_recommendations strategyRuns0 false false [] 3 resolve0 =
      Except.ok
        [{ item_id := "b", details := details0,
           recommendation_score := 27/100 },
         { item_id := "c", details := details0,
           recommendation_score := 24/100 }] := by
  simp only [get_recommendations, strategyRuns0, engineWeights, ok_bind,
    pure_eq_ok, addWeighted_nil, Bool.false_eq_true, if_false]
  rw [blend0_eq, sort0_eq]
  simp [resolve0]

/-- C10.  On every successful `get_recommendations` call, any item whose
catalog lookup fails to resolve is dropped from the final list rather than
included with null fields: every returned entry carries the details the
catalog resolved for it, and the list never exceeds `limit` entries.
Because the drop happens after truncating to the top `limit` scored items,
the list can come up short: in the concrete scenario, items `"b"` and `"c"`
are resolvable with positive blended scores (they are returned when
`limit = 3`), yet the `limit = 1` call returns no entries at all, since the
single truncated candidate `"a"` fails to resolve. -/
theorem unresolved_items_dropped (R : StrategyRuns) (uv et : Bool)
    (tried : List String) (limit : Nat)
    (resolve : String → Option ItemDetails) (out : List RecResult)
    (hout : get_recommendations R uv et tried limit resolve =
      Except.ok out) :
    (∀ r ∈ out, resolve r.item_id = some r.details) ∧
    out.length ≤ limit ∧
    get_recommendations strategyRuns0 false false [] 1 resolve0 =
      Except.ok [] ∧
    get_recommendations strategyRuns0 false false [] 3 resolve0 =
      Except.ok
        [{ item_id := "b", details := details0,
           recommendation_score := 27/100 },
         { item_id := "c", details := details0,
           recommendation_score := 24/100 }] := by
  rcases hc : R.content with e | cs
  · exfalso
    simp only [get_recommendations, hc, error_bind] at hout
    exact Except.noConfusion hout
  rcases hf : R.favorites with e | fs
  · exfalso
    simp only [get_recommendations, hc, hf, ok_bind, error_bind] at hout
    exact Except.noConfusion hout
  rcases hw : R.wardrobe with e | ws
  · exfalso
    simp only [get_recommendations, hc, hf, hw, ok_bind, error_bind] at hout
    exact Except.noConfusion hout
  rcases hb : R.collaborative with e | bs
  · exfalso
    simp only [get_recommendations, hc, hf, hw, hb, ok_bind, error_bind]
      at hout
    exact Except.noConfusion hout
  rcases ht : R.trending with e | ts
  · exfalso
    simp only [get_recommendations, hc, hf, hw, hb, ht, ok_bind, error_bind]
      at hout
    exact Except.noConfusion hout
  simp only [get_recommendations, hc, hf, hw, hb, ht, ok_bind, pure_eq_ok,
    Except.ok.injEq] at hout
  refine ⟨?_, ?_, rec0_limit1, rec0_limit3⟩
  · intro r hr
    rw [← hout] at hr
    rcases List.mem_filterMap.mp hr with ⟨p, hp, hfp⟩
    rcases Option.map_eq_some'.mp hfp with ⟨d, hd, hdr⟩
    rw [← hdr]
    exact hd
  · rw [← hout]
    exact le_trans (List.length_filterMap_le _ _) (List.length_take_le _ _)

/-- Witness for `unresolved_items_dropped` at the concrete scenario. -/
theorem unresolved_items_dropped_concrete :
    get_recommendations strategyRuns0 false false [] 1 resolve0 =
      Except.ok [] ∧
    ((∀ r ∈ ([] : List RecResult), resolve0 r.item_id = some r.details) ∧
      ([] : List RecResult).length ≤ 1 ∧
      get_recommendations strategyRuns0 false false [] 1 resolve0 =
        Except.ok [] ∧
      get_recommendations strategyRuns0 false false [] 3 resolve0 =
        Except.ok
          [{ item_id := "b", details := details0,
             recommendation_score := 27/100 },
           { item_id := "c", details := details0,
             recommendation_score := 24/100 }]) :=
  ⟨rec0_limit1,
    unresolved_items_dropped strategyRuns0 false false [] 1 resolve0 []
      rec0_limit1⟩

/-! ## Collaborative filtering: user similarity (_find_similar_users)

A try-on row enters the computation only through
`metadata.get('category', 'unknown')` and `metadata.get('style', 'unknown')`;
`Counter` objects are insertion-ordered association lists with natural
counts.  `sqrtQ` stands for the floating `** 0.5` used for the magnitudes. -/

/-- One try-on history row as `_find_similar_users` reads it. -/
structure TryOnRecord where
  user_id : Int
  category : Option String
  style : Option String

/-- `Counter[k] += 1`. -/
def countInc : List (String × Nat) → String → List (String × Nat)
  | [], k => [(k, 1)]
  | p :: tl, k => if p.1 = k then (p.1, p.2 + 1) :: tl else p :: countInc tl k

/-- `counter.get(k, 0)`. -/
def natFind : List (String × Nat) → String → Nat
  | [], _ => 0
  | p :: tl, k => if p.1 = k then p.2 else natFind tl k

/-- The category and style counters built over a user's records (every
record contributes to both, with `'unknown'` as the default key). -/
def prefCounters (records : List TryOnRecord) :
    List (String × Nat) × List (String × Nat) :=
  records.foldl (fun acc r =>
    (countInc acc.1 (r.category.getD "unknown"),
     countInc acc.2 (r.style.getD "unknown"))) ([], [])

/-- `all_keys = set(user_cat) | set(other_cat) | set(user_style) |
set(other_style)` (iteration order does not affect the cosine value). -/
def simKeys (uc us oc os : List (String × Nat)) : List String :=
  ((uc.map Prod.fst) ++ (oc.map Prod.fst) ++ (us.map Prod.fst) ++
    (os.map Prod.fst)).dedup

/-- One user's frequency vector over `keys`: category and style counts
summed per key. -/
def simVec (keys : List String) (c s : List (String × Nat)) : List ℚ :=
  keys.map (fun k => (natFind c k : ℚ) + (natFind s k : ℚ))

/-- `RecommendationEngine._calculate_similarity`. -/
def calculate_similarity (sqrtQ : ℚ → ℚ)
    (uc us oc os : List (String × Nat)) : ℚ :=
  let keys := simKeys uc us oc os
  if keys = [] then 0
  else
    let v1 := simVec keys uc us
    let v2 := simVec keys oc os
    let dp := dot v1 v2
    let m1 := sqrtQ (normSq v1)
    let m2 := sqrtQ (normSq v2)
    if m1 = 0 ∨ m2 = 0 then 0 else dp / (m1 * m2)

/-- `RecommendationEngine._find_similar_users`: the target user's first 50
rows build their counters (empty history returns `[]`); the first 50
distinct other users are scored by cosine similarity over their own first
50 rows; only scores strictly above 0.3 survive; the list is sorted by
descending similarity and truncated to `limit`. -/
def find_similar_users (sqrtQ : ℚ → ℚ) (db : List TryOnRecord)
    (user_id : Int) (limit : Nat) : List (Int × ℚ) :=
  let user_tryons := (db.filter (fun r => r.user_id = user_id)).take 50
  if user_tryons.isEmpty then []
  else
    let up := prefCounters user_tryons
    let others :=
      ((db.filter (fun r => r.user_id ≠ user_id)).map
        (fun r => r.user_id)).dedup
    let candidates := others.take 50
    let sims := candidates.filterMap (fun ou =>
      let ot := (db.filter (fun r => r.user_id = ou)).take 50
      let op := prefCounters ot
      let sim := calculate_similarity sqrtQ up.1 up.2 op.1 op.2
      if 3/10 < sim then some (ou, sim) else none)
    (sortDesc (fun p => p.2) sims).take limit

theorem dot_self_eq_normSq (v : List ℚ) : dot v v = normSq v := by
  induction v with
  | nil => simp [dot, normSq]
  | cons x xs ih =>
      simp only [dot, normSq, List.zipWith_cons_cons, List.map_cons,
        List.sum_cons] at *
      rw [ih]

theorem calculate_similarity_self (sqrtQ : ℚ → ℚ)
    (uc us : List (String × Nat))
    (hs : sqrtQ (normSq (simVec (simKeys uc us uc us) uc us)) *
        sqrtQ (normSq (simVec (simKeys uc us uc us) uc us)) =
      normSq (simVec (simKeys uc us uc us) uc us))
    (hnz : normSq (simVec (simKeys uc us uc us) uc us) ≠ 0) :
    calculate_similarity sqrtQ uc us uc us = 1 := by
  simp only [calculate_similarity]
  by_cases hkeys : simKeys uc us uc us = []
  · exfalso
    apply hnz
    rw [hkeys]
    simp [simVec, normSq]
  · rw [if_neg hkeys]
    have hm : sqrtQ (normSq (simVec (simKeys uc us uc us) uc us)) ≠ 0 := by
      intro h0
      apply hnz
      rw [← hs, h0, mul_zero]
    rw [if_neg (by push_neg; exact ⟨hm, hm⟩)]
    rw [dot_self_eq_normSq]
    nth_rewrite 1 [← hs]
    exact div_self (mul_ne_zero hm hm)

theorem calculate_similarity_disjoint (sqrtQ : ℚ → ℚ)
    (uc us oc os : List (String × Nat))
    (hdisj : ∀ k : String,
      (natFind uc k = 0 ∧ natFind us k = 0) ∨
      (natFind oc k = 0 ∧ natFind os k = 0)) :
    calculate_similarity sqrtQ uc us oc os = 0 := by
  simp only [calculate_similarity]
  by_cases hkeys : simKeys uc us oc os = []
  · rw [if_pos hkeys]
  · rw [if_neg hkeys]
    have hzero : ∀ k : String,
        ((natFind uc k : ℚ) + (natFind us k : ℚ)) *
          ((natFind oc k : ℚ) + (natFind os k : ℚ)) = 0 := by
      intro k
      rcases hdisj k with ⟨h1, h2⟩ | ⟨h1, h2⟩ <;>
        simp [h1, h2]
    have hdot : ∀ keys : List String,
        dot (simVec keys uc us) (simVec keys oc os) = 0 := by
      intro keys
      induction keys with
      | nil => simp [simVec, dot]
      | cons k ks ih =>
          simp only [simVec, List.map_cons, dot, List.zipWith_cons_cons,
            List.sum_cons]
          simp only [simVec, dot] at ih
          rw [hzero k, ih, add_zero]
    rw [hdot]
    by_cases hm : sqrtQ (normSq (simVec (simKeys uc us oc os) uc us)) = 0 ∨
        sqrtQ (normSq (simVec (simKeys uc us oc os) oc os)) = 0
    · rw [if_pos hm]
    · rw [if_neg hm, zero_div]

theorem find_similar_users_shape (sqrtQ : ℚ → ℚ) (db : List TryOnRecord)
    (user_id : Int) (limit : Nat) :
    SortedDescBy (fun p => p.2) (find_similar_users sqrtQ db user_id limit) ∧
    (∀ p ∈ find_similar_users sqrtQ db user_id limit, (3 : ℚ)/10 < p.2) ∧
    (find_similar_users sqrtQ db user_id limit).length ≤ limit := by
  simp only [find_similar_users]
  by_cases h : ((db.filter (fun r => r.user_id = user_id)).take 50).isEmpty
  · rw [if_pos h]
    refine ⟨List.Pairwise.nil, ?_, ?_⟩
    · intro p hp
      cases hp
    · simp
  · rw [if_neg h]
    refine ⟨?_, ?_, List.length_take_le _ _⟩
    · exact List.Pairwise.sublist (List.take_sublist _ _)
        (sortedDescBy_sortDesc _ _)
    · intro p hp
      have hp2 := List.mem_of_mem_take hp
      have hp3 := (mem_sortDesc _ _ _).mp hp2
      rcases List.mem_filterMap.mp hp3 with ⟨ou, hou, hif⟩
      split at hif
      · rename_i hc
        cases hif
        exact hc
      · cases hif

/-! ## C7: user-user cosine similarity -/

/-- C7.  `find_similar_users` scores each candidate by the cosine
similarity of the two users' frequency vectors over the union of category
and style keys (category and style counts summed per key), keeps only
candidates with similarity strictly above 0.3, and returns the top `limit`
sorted by descending similarity.  Two users with identical category/style
interaction distributions get similarity exactly 1 (whenever the float
square root is exact on their vector and the vector is nonzero), and a user
with completely disjoint categories and styles gets similarity exactly 0 —
below the 0.3 threshold, hence excluded by the membership property. -/
theorem find_similar_users_cosine (sqrtQ : ℚ → ℚ) (db : List TryOnRecord)
    (user_id : Int) (limit : Nat) (uc us oc os : List (String × Nat))
    (hs : sqrtQ (normSq (simVec (simKeys uc us uc us) uc us)) *
        sqrtQ (normSq (simVec (simKeys uc us uc us) uc us)) =
      normSq (simVec (simKeys uc us uc us) uc us))
    (hnz : normSq (simVec (simKeys uc us uc us) uc us) ≠ 0)
    (hdisj : ∀ k : String,
      (natFind uc k = 0 ∧ natFind us k = 0) ∨
      (natFind oc k = 0 ∧ natFind os k = 0)) :
    SortedDescBy (fun p => p.2) (find_similar_users sqrtQ db user_id limit) ∧
    (∀ p ∈ find_similar_users sqrtQ db user_id limit, (3 : ℚ)/10 < p.2) ∧
    (find_similar_users sqrtQ db user_id limit).length ≤ limit ∧
    calculate_similarity sqrtQ uc us uc us = 1 ∧
    calculate_similarity sqrtQ uc us oc os = 0 := by
  rcases find_similar_users_shape sqrtQ db user_id limit with ⟨h1, h2, h3⟩
  exact ⟨h1, h2, h3, calculate_similarity_self sqrtQ uc us hs hnz,
    calculate_similarity_disjoint sqrtQ uc us oc os hdisj⟩

/-- An exact square root on the one magnitude the witness needs. -/
def sqrtQ0 : ℚ → ℚ := fun x => if x = 25 then 5 else 1

/-- Category counter of the target user (witness data). -/
def uc0 : List (String × Nat) := [("top", 3)]

/-- Style counter of the target user (witness data). -/
def us0 : List (String × Nat) := [("casual", 4)]

/-- Category counter of a completely disjoint user (witness data). -/
def oc0 : List (String × Nat) := [("dress", 2)]

/-- Style counter of a completely disjoint user (witness data). -/
def os0 : List (String × Nat) := [("formal", 7)]

/-- Concrete history rows for three users. -/
def db0 : List TryOnRecord :=
  [{ user_id := 1, category := some "top", style := some "casual" },
   { user_id := 2, category := some "top", style := some "casual" },
   { user_id := 3, category := some "dress", style := some "formal" }]

/-- Witness for `find_similar_users_cosine` at concrete counters and
history. -/
theorem find_similar_users_cosine_concrete :
    (sqrtQ0 (normSq (simVec (simKeys uc0 us0 uc0 us0) uc0 us0)) *
        sqrtQ0 (normSq (simVec (simKeys uc0 us0 uc0 us0) uc0 us0)) =
      normSq (simVec (simKeys uc0 us0 uc0 us0) uc0 us0) ∧
      normSq (simVec (simKeys uc0 us0 uc0 us0) uc0 us0) ≠ 0) ∧
    (SortedDescBy (fun p => p.2) (find_similar_users sqrtQ0 db0 1 10) ∧
      (∀ p ∈ find_similar_users sqrtQ0 db0 1 10, (3 : ℚ)/10 < p.2) ∧
      (find_similar_users sqrtQ0 db0 1 10).length ≤ 10 ∧
      calculate_similarity sqrtQ0 uc0 us0 uc0 us0 = 1 ∧
      calculate_similarity sqrtQ0 uc0 us0 oc0 os0 = 0) := by
  have hkeys : simKeys uc0 us0 uc0 us0 = ["top", "casual"] := rfl
  have hv : simVec ["top", "casual"] uc0 us0 = [3, 4] := by
    simp [simVec, uc0, us0, natFind]
  have hns : normSq [(3 : ℚ), 4] = 25 := by norm_num [normSq]
  have hs : sqrtQ0 (normSq (simVec (simKeys uc0 us0 uc0 us0) uc0 us0)) *
      sqrtQ0 (normSq (simVec (simKeys uc0 us0 uc0 us0) uc0 us0)) =
      normSq (simVec (simKeys uc0 us0 uc0 us0) uc0 us0) := by
    rw [hkeys, hv, hns]
    norm_num [sqrtQ0]
  have hnz : normSq (simVec (simKeys uc0 us0 uc0 us0) uc0 us0) ≠ 0 := by
    rw [hkeys, hv, hns]
    norm_num
  have hdisj : ∀ k : String,
      (natFind uc0 k = 0 ∧ natFind us0 k = 0) ∨
      (natFind oc0 k = 0 ∧ natFind os0 k = 0) := by
    intro k
    by_cases hd : ("dress" : String) = k
    · subst hd
      left
      constructor <;> simp [uc0, us0, natFind]
    · by_cases hf : ("formal" : String) = k
      · subst hf
        left
        constructor <;> simp [uc0, us0, natFind]
      · right
        constructor <;> simp [oc0, os0, natFind, hd, hf]
  exact ⟨⟨hs, hnz⟩,
    find_similar_users_cosine sqrtQ0 db0 1 10 uc0 us0 oc0 os0 hs hnz hdisj⟩

end VirtualTryOn
